import Mathlib

set_option linter.unusedVariables false
set_option maxRecDepth 10000

/-!
Shallow embedding of the excerpt:

* `torch/nn/parallel/_functions.py` — the differentiable multi-device
  communication functions (`Broadcast`, `ReduceAddCoalesced`, `Gather`,
  `Scatter`) together with the lazy per-device background-stream table
  (`_streams`, `_get_stream`) and the device-module lookup
  (`_get_device_impl`).

* `torch/backends/_coreml/preprocess.py` — the one-shot model-export
  adapter (`preprocess`, `_check_enumerated_shape`, `_convert_to_mil_type`).

Stateful code is embedded by explicit state passing over a `World` record
that carries the device-runtime environment (availability, device count,
current streams), the global stream table, a fresh-id counter for newly
created stream objects, and a log of the calls made into the wrapped
communication library and the stream-synchronization calls.  Fallible code
returns `Except`.  The wrapped libraries themselves (`torch.nn.parallel.comm`,
`torch._utils`, `coremltools`, the device runtime) are not part of the
excerpt; they are modelled from the spec where a claim needs their visible
behavior, and abstractly (as parameters) otherwise.
-/

/-- Device of a tensor: the host CPU or an accelerator with an index. -/
inductive DeviceT where
  | cpu : DeviceT
  | gpu (index : Nat) : DeviceT
deriving DecidableEq, Repr

/-- A tensor, as far as the communication functions inspect one: its device
and its shape.  The numeric payload never influences the control flow of the
excerpt, so it is not part of the model. -/
structure Tensor where
  device : DeviceT
  shape : List Nat
deriving DecidableEq, Repr

instance : Inhabited Tensor := ⟨⟨DeviceT.cpu, []⟩⟩

/-- `tensor.get_device()`: the accelerator index, `-1` on the CPU. -/
def Tensor.get_device : Tensor → Int
  | ⟨DeviceT.cpu, _⟩ => -1
  | ⟨DeviceT.gpu i, _⟩ => i

/-- Normalize a (possibly negative, Python-style) dimension index. -/
def normDim (d : Int) (len : Nat) : Nat :=
  if d < 0 then (d + len).toNat else d.toNat

/-- `tensor.size(d)`: the extent of the shape along dimension `d`
(Python-style negative indices wrap; the excerpt only evaluates it at
in-range dimensions). -/
def Tensor.size (t : Tensor) (d : Int) : Nat :=
  t.shape.getD (normDim d t.shape.length) 0

/-- `tensor.dim()`: the number of dimensions. -/
def Tensor.ndim (t : Tensor) : Nat := t.shape.length

/-- `tensor.view(1)`: the one-element vector view taken of a scalar in
`Gather.forward`. -/
def Tensor.view1 (t : Tensor) : Tensor := { t with shape := [1] }

/-- `tensor[0]`: indexing along the leading dimension, as applied to the
scattered gradients in `Gather.backward`; it drops the leading dimension. -/
def Tensor.index0 (t : Tensor) : Tensor := { t with shape := t.shape.tail }

/-- Replace the extent of `shape` along dimension `d`. -/
def setDim (shape : List Nat) (d : Int) (v : Nat) : List Nat :=
  shape.set (normDim d shape.length) v

/-- The `target_device` argument of `Gather.forward`: either the string
`"cpu"` or a device index. -/
inductive GatherDest where
  | cpuDest : GatherDest
  | index (i : Int) : GatherDest
deriving DecidableEq, Repr

/-- The Python exceptions the excerpt can raise. -/
inductive PErr where
  | assertionError (msg : String)
  | importError (msg : String)
  | valueError (msg : String)
  | attributeError (msg : String)
  | keyError (msg : String)
deriving DecidableEq, Repr

/-- Observable external calls made by the communication functions: the four
entry points of the wrapped communication library, the stream
synchronization calls issued by `Scatter.forward`, and warnings. -/
inductive Event where
  | broadcastCoalesced (inputs : List Tensor) (devices : List Int)
  | reduceAddCoalesced (grads : List (List Tensor)) (destination : Int)
  | gatherComm (inputs : List Tensor) (dim : Int) (destination : GatherDest)
  | scatterComm (input : Tensor) (devices : List Int)
      (chunkSizes : Option (List Nat)) (dim : Int)
      (streams : Option (List (Option Nat)))
  | waitStream (device : Int) (main : Nat) (background : Option Nat)
  | recordStream (output : Tensor) (stream : Nat)
  | warn (msg : String)
deriving DecidableEq, Repr

/-- The mutable world the functions run in.  `availType`, `isAvailable`,
`deviceCount` and `currentStream` model the device runtime
(`_get_available_device_type`, `torch.<dev>.is_available`,
`torch.<dev>.device_count`, `torch.<dev>.current_stream`); `streams` is the
module-global `_streams` table (stream objects are identified by the `Nat`
id they received from the `nextId` counter when created); `log` records the
external calls made so far. -/
structure World where
  availType : Option String
  isAvailable : Bool
  deviceCount : Nat
  currentStream : Int → Nat
  streams : Option (List (Option Nat))
  nextId : Nat
  log : List Event

/-- Modelled from the spec: `torch._utils._get_device_index` is not part of
the excerpt; the spec says the communication functions merely forward
translated arguments, and on device indices (the only values the claims
exercise) the translation is the identity. -/
def _get_device_index (x : Int) : Int := x

/-- Turn a device index into a device (`-1` denotes the CPU). -/
def DeviceT.ofIndex (i : Int) : DeviceT :=
  if i < 0 then DeviceT.cpu else DeviceT.gpu i.toNat

/-- Modelled from the spec: the even split `comm.scatter` applies when no
chunk sizes are given (each chunk takes the ceiling share, the last takes
the remainder). -/
def defaultChunkSizes (n k : Nat) : List Nat :=
  let c := (n + k - 1) / k
  (List.range k).map (fun i => min c (n - i * c))

/-- Modelled from the spec: `comm.broadcast_coalesced` copies every input
tensor to every target device, returning one list of copies per device. -/
def comm.broadcast_coalesced (inputs : List Tensor) (devices : List Int) :
    List (List Tensor) :=
  devices.map (fun d => inputs.map (fun t => { t with device := DeviceT.ofIndex d }))

/-- Modelled from the spec: `comm.reduce_add_coalesced` sums the groups of
gradients elementwise onto the destination device, returning one tensor per
position of the first group. -/
def comm.reduce_add_coalesced (grads : List (List Tensor)) (destination : Int) :
    List Tensor :=
  (grads.headD []).map (fun t => { t with device := DeviceT.ofIndex destination })

/-- Modelled from the spec: `comm.gather` concatenates the inputs along
`dim` on the destination device, so the result's extent along `dim` is the
sum of the inputs' extents there. -/
def comm.gather (inputs : List Tensor) (dim : Int) (destination : GatherDest) :
    Tensor :=
  { device :=
      match destination with
      | GatherDest.cpuDest => DeviceT.cpu
      | GatherDest.index i => DeviceT.ofIndex i,
    shape :=
      match inputs with
      | [] => []
      | t :: _ => setDim t.shape dim (inputs.map (fun i => i.size dim)).sum }

/-- Modelled from the spec: `comm.scatter` splits the input along `dim`
into chunks of the given sizes, one chunk per target device; the `streams`
argument only selects which stream the copies run on and does not affect
the produced tensors. -/
def comm.scatter (input : Tensor) (devices : List Int)
    (chunk_sizes : Option (List Nat)) (dim : Int)
    (streams : Option (List (Option Nat))) : List Tensor :=
  let sizes :=
    match chunk_sizes with
    | some s => s
    | none => defaultChunkSizes (input.size dim) devices.length
  (devices.zip sizes).map
    (fun p => { device := DeviceT.ofIndex p.1, shape := setDim input.shape dim p.2 })

/-- The `ImportError` message of `_get_device_impl`. -/
def importErrorMsg : String :=
  "Failed to import the gpu device module of pytorch (torch.cuda or torch.xpu)."

/-- Embeds `_get_device_impl`: returns the available accelerator device
type, raising `ImportError` when there is none.  The `functools.cache`
decorator is behaviorally transparent for this pure read, and the imported
module itself is represented by the device-runtime fields of `World`. -/
def _get_device_impl (w : World) : Except PErr String :=
  match w.availType with
  | some t => Except.ok t
  | none => Except.error (PErr.importError importErrorMsg)

/-- Embeds `_get_stream` in the states where the device module import has
already succeeded (as it has by the point `Scatter.forward` consults the
table): returns `None` for device `-1`, otherwise lazily creates the table
and then the per-device stream, returning the stored stream id. -/
def _get_stream_cached (w : World) (device : Int) : World × Option Nat :=
  if device = -1 then (w, none)
  else
    let table := w.streams.getD (List.replicate w.deviceCount none)
    match table.getD device.toNat none with
    | some s => ({ w with streams := some table }, some s)
    | none =>
      let sid := w.nextId
      ({ w with streams := some (table.set device.toNat (some sid)),
                nextId := sid + 1 }, some sid)

/-- Embeds `_get_stream`: fetches the device module (raising `ImportError`
if no accelerator is available) and then reads or lazily fills the global
stream table. -/
def _get_stream (w : World) (device : Int) : World × Except PErr (Option Nat) :=
  match _get_device_impl w with
  | Except.error e => (w, Except.error e)
  | Except.ok _ =>
    let r := _get_stream_cached w device
    (r.1, Except.ok r.2)

/-- The list comprehension `[_get_stream(device) for device in target_gpus]`
of `Scatter.forward`, threading the world left to right. -/
def getStreams (w : World) (devices : List Int) : World × List (Option Nat) :=
  match devices with
  | [] => (w, [])
  | d :: rest =>
    let r := _get_stream_cached w d
    let rr := getStreams r.1 rest
    (rr.1, r.2 :: rr.2)

/-- The assertion message of `Broadcast.forward`. -/
def broadcastAssertMsg : String := "Broadcast function not implemented for CPU tensors"

/-- The context saved by `Broadcast.forward`.  `num_inputs` and
`input_device` are optional because the zero-input early return leaves them
unset. -/
structure BroadcastCtx where
  target_gpus : List Int
  num_inputs : Option Nat
  input_device : Option Int
deriving DecidableEq, Repr

/-- Embeds `Broadcast.forward`: asserts no input is a CPU tensor, records
the target devices, returns the empty tuple for zero inputs, and otherwise
records the input count and first input's device and broadcasts the
coalesced inputs to every target device, returning the flattened
per-device copies.  (`ctx.mark_non_differentiable` only tags autograd
metadata on the host framework's node and is outside the excerpt's state;
it affects neither the outputs nor the saved context.) -/
def Broadcast.forward (w : World) (target_gpus : List Int) (inputs : List Tensor) :
    World × Except PErr (BroadcastCtx × List Tensor) :=
  if inputs.all (fun i => i.device != DeviceT.cpu) then
    let tg := target_gpus.map _get_device_index
    match inputs with
    | [] =>
      (w, Except.ok ({ target_gpus := tg, num_inputs := none, input_device := none }, []))
    | i0 :: _ =>
      let ctx : BroadcastCtx :=
        { target_gpus := tg,
          num_inputs := some inputs.length,
          input_device := some i0.get_device }
      let outputs := comm.broadcast_coalesced inputs tg
      let w1 := { w with log := w.log ++ [Event.broadcastCoalesced inputs tg] }
      (w1, Except.ok (ctx, outputs.flatten))
  else
    (w, Except.error (PErr.assertionError broadcastAssertMsg))

/-- `Broadcast.apply`: run the forward pass and return its outputs. -/
def Broadcast.applyF (w : World) (target_gpus : List Int) (inputs : List Tensor) :
    World × Except PErr (List Tensor) :=
  let r := Broadcast.forward w target_gpus inputs
  (r.1, r.2.map (fun p => p.2))

/-- `range(0, stop, step)` for a positive step. -/
def rangeStep (stop step : Nat) : List Nat :=
  (List.range ((stop + step - 1) / step)).map (fun i => i * step)

/-- The context saved by `ReduceAddCoalesced.forward`. -/
structure ReduceAddCoalescedCtx where
  target_gpus : List Int
deriving DecidableEq, Repr

/-- Embeds `ReduceAddCoalesced.forward`: records the device of every
`num_inputs`-th gradient as the target devices, groups the gradients in
blocks of `num_inputs`, and reduces each group onto the destination device.
A zero `num_inputs` raises `ValueError` (Python's `range` rejects a zero
step). -/
def ReduceAddCoalesced.forward (w : World) (destination : Int) (num_inputs : Nat)
    (grads : List Tensor) :
    World × Except PErr (ReduceAddCoalescedCtx × List Tensor) :=
  if num_inputs = 0 then
    (w, Except.error (PErr.valueError "range() arg 3 must not be zero"))
  else
    let idxs := rangeStep grads.length num_inputs
    let ctx : ReduceAddCoalescedCtx :=
      { target_gpus := idxs.map (fun i => (grads.getD i default).get_device) }
    let grads_ := idxs.map (fun i => (grads.drop i).take num_inputs)
    let outputs := comm.reduce_add_coalesced grads_ destination
    let w1 := { w with log := w.log ++ [Event.reduceAddCoalesced grads_ destination] }
    (w1, Except.ok (ctx, outputs))

/-- `ReduceAddCoalesced.apply`: run the forward pass and return its outputs. -/
def ReduceAddCoalesced.applyF (w : World) (destination : Int) (num_inputs : Nat)
    (grads : List Tensor) : World × Except PErr (List Tensor) :=
  let r := ReduceAddCoalesced.forward w destination num_inputs grads
  (r.1, r.2.map (fun p => p.2))

/-- Embeds `Broadcast.backward`: one `None` for the `target_gpus` argument
followed by `ReduceAddCoalesced.apply` of the incoming gradients at the
recorded input device and input count.  Reading a context field the forward
pass never set raises `AttributeError`. -/
def Broadcast.backward (w : World) (ctx : BroadcastCtx) (grad_outputs : List Tensor) :
    World × Except PErr (List (Option Tensor)) :=
  match ctx.input_device, ctx.num_inputs with
  | some d, some n =>
    let r := ReduceAddCoalesced.applyF w d n grad_outputs
    (r.1, r.2.map (fun outs => none :: outs.map some))
  | _, _ =>
    (w, Except.error (PErr.attributeError "input_device"))

/-- Embeds `ReduceAddCoalesced.backward`: two `None`s for the `destination`
and `num_inputs` arguments followed by `Broadcast.apply` of the incoming
gradients at the recorded target devices. -/
def ReduceAddCoalesced.backward (w : World) (ctx : ReduceAddCoalescedCtx)
    (grad_outputs : List Tensor) : World × Except PErr (List (Option Tensor)) :=
  let r := Broadcast.applyF w ctx.target_gpus grad_outputs
  (r.1, r.2.map (fun outs => none :: none :: outs.map some))

/-- The assertion message of `Gather.forward`. -/
def gatherAssertMsg : String := "Gather function not implemented for CPU tensors"

/-- The warning issued when gathering scalars along dimension 0. -/
def gatherScalarWarnMsg : String :=
  "Was asked to gather along dimension 0, but all input tensors were scalars; will instead unsqueeze and return a vector."

/-- The `target_device` branch of `Gather.forward`: the string `"cpu"`
passes through, an index goes through `_get_device_index`. -/
def translateGatherDest : GatherDest → GatherDest
  | GatherDest.cpuDest => GatherDest.cpuDest
  | GatherDest.index i => GatherDest.index (_get_device_index i)

/-- The context saved by `Gather.forward`. -/
structure GatherCtx where
  target_device : GatherDest
  dim : Int
  input_gpus : List Int
  unsqueezed_scalar : Bool
  input_sizes : List Nat
deriving DecidableEq, Repr

/-- Embeds `Gather.forward`: asserts no input is a CPU tensor, records the
(index-translated) target device, the dimension and the input devices;
when every input is a scalar and `dim` is 0, views each input as a
one-element vector with a warning; records the inputs' extents along `dim`
and gathers them on the target device. -/
def Gather.forward (w : World) (target_device : GatherDest) (dim : Int)
    (inputs : List Tensor) : World × Except PErr (GatherCtx × Tensor) :=
  if inputs.all (fun i => i.device != DeviceT.cpu) then
    let td := translateGatherDest target_device
    let input_gpus := inputs.map Tensor.get_device
    let unsq : Bool := inputs.all (fun t => t.ndim == 0) && dim == 0
    let w1 :=
      if unsq then { w with log := w.log ++ [Event.warn gatherScalarWarnMsg] } else w
    let inputs' := if unsq then inputs.map Tensor.view1 else inputs
    let input_sizes := inputs'.map (fun i => i.size dim)
    let out := comm.gather inputs' dim td
    let w2 := { w1 with log := w1.log ++ [Event.gatherComm inputs' dim td] }
    (w2, Except.ok ({ target_device := td, dim := dim, input_gpus := input_gpus,
                      unsqueezed_scalar := unsq, input_sizes := input_sizes }, out))
  else
    (w, Except.error (PErr.assertionError gatherAssertMsg))

/-- `Gather.apply`: run the forward pass and return its output tensor. -/
def Gather.applyF (w : World) (target_device : GatherDest) (dim : Int)
    (inputs : List Tensor) : World × Except PErr Tensor :=
  let r := Gather.forward w target_device dim inputs
  (r.1, r.2.map (fun p => p.2))

/-- The context saved by `Scatter.forward`. -/
structure ScatterCtx where
  dim : Int
  input_device : Int
deriving DecidableEq, Repr

/-- The synchronization loop of `Scatter.forward`: for each output (paired
with its target device and the background stream used for it), the target
device's current stream waits on the background stream and the output is
recorded on the current stream. -/
def syncEvents (cur : Int → Nat) (outputs : List Tensor) (tg : List Int)
    (ss : List (Option Nat)) : List Event :=
  ((outputs.zip (tg.zip ss)).map
    (fun p => [Event.waitStream p.2.1 (cur p.2.1) p.2.2,
               Event.recordStream p.1 (cur p.2.1)])).flatten

/-- Embeds `Scatter.forward`: translates the target devices, records the
dimension and the input device (`-1` for a CPU input), fetches the device
module (propagating its `ImportError`), acquires one background stream per
target device exactly when the runtime is available and the input is on the
CPU, scatters the input, and, when background streams were used, makes each
target device's current stream wait on that device's background stream and
records the corresponding output on the current stream. -/
def Scatter.forward (w : World) (target_gpus : List Int)
    (chunk_sizes : Option (List Nat)) (dim : Int) (input : Tensor) :
    World × Except PErr (ScatterCtx × List Tensor) :=
  let tg := target_gpus.map _get_device_index
  let input_device : Int :=
    if input.device != DeviceT.cpu then input.get_device else -1
  match _get_device_impl w with
  | Except.error e => (w, Except.error e)
  | Except.ok _ =>
    let acquire : Bool := w.isAvailable && input_device == -1
    let w1 := if acquire then (getStreams w tg).1 else w
    let streams : Option (List (Option Nat)) :=
      if acquire then some (getStreams w tg).2 else none
    let outputs := comm.scatter input tg chunk_sizes dim streams
    let w2 := { w1 with log := w1.log ++ [Event.scatterComm input tg chunk_sizes dim streams] }
    let w3 :=
      match streams with
      | none => w2
      | some ss => { w2 with log := w2.log ++ syncEvents w2.currentStream outputs tg ss }
    (w3, Except.ok ({ dim := dim, input_device := input_device }, outputs))

/-- `Scatter.apply`: run the forward pass and return its outputs. -/
def Scatter.applyF (w : World) (target_gpus : List Int)
    (chunk_sizes : Option (List Nat)) (dim : Int) (input : Tensor) :
    World × Except PErr (List Tensor) :=
  let r := Scatter.forward w target_gpus chunk_sizes dim input
  (r.1, r.2.map (fun p => p.2))

/-- Embeds `Gather.backward`: scatters the incoming gradient back over the
recorded input devices with the recorded chunk sizes along the recorded
dimension; when the forward pass unsqueezed scalars, indexes element 0 of
each scattered gradient; two `None`s for the `target_device` and `dim`
arguments precede the gradients. -/
def Gather.backward (w : World) (ctx : GatherCtx) (grad_output : Tensor) :
    World × Except PErr (List (Option Tensor)) :=
  let r := Scatter.applyF w ctx.input_gpus (some ctx.input_sizes) ctx.dim grad_output
  (r.1, r.2.map (fun scattered =>
    let scattered' :=
      if ctx.unsqueezed_scalar then scattered.map Tensor.index0 else scattered
    none :: none :: scattered'.map some))

/-- Embeds `Scatter.backward`: three `None`s for the `target_gpus`,
`chunk_sizes` and `dim` arguments followed by `Gather.apply` of the
incoming gradients at the recorded input device and dimension. -/
def Scatter.backward (w : World) (ctx : ScatterCtx) (grad_output : List Tensor) :
    World × Except PErr (List (Option Tensor)) :=
  let r := Gather.applyF w (GatherDest.index ctx.input_device) ctx.dim grad_output
  (r.1, r.2.map (fun g => [none, none, none, some g]))

/-- A shape element as the export adapter sees one: a dimension (an
integer) or a nested sequence of dimensions (one candidate shape of an
enumerated-shapes spec).  The adapter only ever distinguishes "list or
tuple" from "anything else" and renders the value with `str`, so two
levels of nesting (the depths `TensorSpec` shapes use) embed every value
the code inspects. -/
inductive PyItem where
  | int (n : Int)
  | list (xs : List Int)
  | tuple (xs : List Int)
deriving DecidableEq, Repr

/-- The shape argument of a `TensorSpec`: a Python list or tuple of shape
elements. -/
inductive PyShape where
  | list (items : List PyItem)
  | tuple (items : List PyItem)
deriving DecidableEq, Repr

instance : Inhabited PyShape := ⟨PyShape.tuple []⟩

/-- The elements iterated by `for s in shape`. -/
def PyShape.items : PyShape → List PyItem
  | PyShape.list xs => xs
  | PyShape.tuple xs => xs

/-- `isinstance(s, (list, tuple))`. -/
def PyItem.isSeq : PyItem → Bool
  | PyItem.list _ => true
  | PyItem.tuple _ => true
  | PyItem.int _ => false

/-- Embeds `_check_enumerated_shape`: `False` as soon as some element is
neither a list nor a tuple, `True` otherwise (so vacuously `True` on an
empty shape). -/
def _check_enumerated_shape (shape : PyShape) : Bool :=
  shape.items.all PyItem.isSeq

/-- Python `str` of a list of integers. -/
def pyStrIntList (xs : List Int) : String :=
  "[" ++ String.intercalate ", " (xs.map toString) ++ "]"

/-- Python `str` of a tuple of integers (singleton tuples print a trailing
comma). -/
def pyStrIntTuple (xs : List Int) : String :=
  match xs with
  | [x] => "(" ++ toString x ++ ",)"
  | _ => "(" ++ String.intercalate ", " (xs.map toString) ++ ")"

/-- Python `str` of a shape element. -/
def PyItem.pystr : PyItem → String
  | PyItem.int n => toString n
  | PyItem.list xs => pyStrIntList xs
  | PyItem.tuple xs => pyStrIntTuple xs

/-- Python `str` of a shape. -/
def PyShape.pystr : PyShape → String
  | PyShape.list items => "[" ++ String.intercalate ", " (items.map PyItem.pystr) ++ "]"
  | PyShape.tuple [x] => "(" ++ x.pystr ++ ",)"
  | PyShape.tuple items => "(" ++ String.intercalate ", " (items.map PyItem.pystr) ++ ")"

/-- Python `str` of a bool. -/
def pyStrBool (b : Bool) : String := if b then "True" else "False"

/-- `ScalarType.Float`: the integer constants of the `ScalarType` class
(`Int` and `Long` carry a `Ty` suffix here because those names denote types
in Lean). -/
def ScalarType.Float : Int := 0

/-- `ScalarType.Double`. -/
def ScalarType.Double : Int := 1

/-- `ScalarType.Int`. -/
def ScalarType.IntTy : Int := 2

/-- `ScalarType.Long`. -/
def ScalarType.LongTy : Int := 3

/-- `ScalarType.Undefined`. -/
def ScalarType.Undefined : Int := 4

/-- The MIL element types the adapter can emit
(`coremltools.converters.mil.mil.types`). -/
inductive MilDType where
  | fp32 | fp64 | int32 | int64
deriving DecidableEq, Repr

/-- Embeds the `torch_to_mil_types` dictionary; `none` models the
`KeyError` a lookup of any other scalar type raises. -/
def torch_to_mil_types (dtype : Int) : Option MilDType :=
  if dtype = ScalarType.Float then some MilDType.fp32
  else if dtype = ScalarType.Double then some MilDType.fp64
  else if dtype = ScalarType.IntTy then some MilDType.int32
  else if dtype = ScalarType.LongTy then some MilDType.int64
  else none

/-- The shape slot of a MIL tensor type: either the shape passed through
unchanged, or the shape wrapped by `ct.EnumeratedShapes` (the wrapping is
modelled as a constructor; what the third-party library does with it is
outside the excerpt). -/
inductive MilShape where
  | plain (shape : PyShape)
  | enumerated (shapes : PyShape)
deriving DecidableEq, Repr

/-- A `coremltools` `TensorType` with its assigned name. -/
structure MilTensorType where
  shape : MilShape
  dtype : MilDType
  name : String
deriving DecidableEq, Repr

/-- Embeds `_convert_to_mil_type`: wraps the shape as enumerated when
`_check_enumerated_shape` accepts it, looks the dtype up in
`torch_to_mil_types` (a failed lookup raises `KeyError`, hence `none`),
and names the resulting tensor type. -/
def _convert_to_mil_type (shape : PyShape) (dtype : Int) (name : String) :
    Option MilTensorType :=
  let mil_shape :=
    if _check_enumerated_shape shape then MilShape.enumerated shape
    else MilShape.plain shape
  (torch_to_mil_types dtype).map
    (fun d => { shape := mil_shape, dtype := d, name := name })

/-- `TensorSpec(shape, dtype)`: just the pair. -/
def TensorSpec (shape : PyShape) (dtype : Int) : PyShape × Int := (shape, dtype)

/-- `CompileSpec(inputs, outputs, backend, allow_low_precision)`: just the
4-tuple. -/
def CompileSpec (inputs outputs : List (PyShape × Int)) (backend : String)
    (allow_low_precision : Bool) :
    List (PyShape × Int) × List (PyShape × Int) × String × Bool :=
  (inputs, outputs, backend, allow_low_precision)

/-- `CoreMLComputeUnit.CPU`. -/
def CoreMLComputeUnit.CPU : String := "cpuOnly"

/-- `CoreMLComputeUnit.CPUAndGPU`. -/
def CoreMLComputeUnit.CPUAndGPU : String := "cpuAndGPU"

/-- `CoreMLComputeUnit.ALL`. -/
def CoreMLComputeUnit.ALL : String := "all"

/-- Reduce to a 32-bit word. -/
def w32 (x : Nat) : Nat := x % 4294967296

/-- 32-bit rotate right. -/
def rotr32 (x n : Nat) : Nat := w32 ((x >>> n) ||| (x <<< (32 - n)))

/-- SHA-256 `Ch`. -/
def shaCh (x y z : Nat) : Nat :=
  Nat.xor (Nat.land x y) (Nat.land (Nat.xor x 4294967295) z)

/-- SHA-256 `Maj`. -/
def shaMaj (x y z : Nat) : Nat :=
  Nat.xor (Nat.xor (Nat.land x y) (Nat.land x z)) (Nat.land y z)

/-- SHA-256 `Σ0`. -/
def shaBigS0 (x : Nat) : Nat :=
  Nat.xor (Nat.xor (rotr32 x 2) (rotr32 x 13)) (rotr32 x 22)

/-- SHA-256 `Σ1`. -/
def shaBigS1 (x : Nat) : Nat :=
  Nat.xor (Nat.xor (rotr32 x 6) (rotr32 x 11)) (rotr32 x 25)

/-- SHA-256 `σ0`. -/
def shaSmallS0 (x : Nat) : Nat :=
  Nat.xor (Nat.xor (rotr32 x 7) (rotr32 x 18)) (x >>> 3)

/-- SHA-256 `σ1`. -/
def shaSmallS1 (x : Nat) : Nat :=
  Nat.xor (Nat.xor (rotr32 x 17) (rotr32 x 19)) (x >>> 10)

/-- The SHA-256 round constants. -/
def sha256K : List Nat :=
  [1116352408, 1899447441, 3049323471, 3921009573, 961987163,
   1508970993, 2453635748, 2870763221, 3624381080, 310598401,
   607225278, 1426881987, 1925078388, 2162078206, 2614888103,
   3248222580, 3835390401, 4022224774, 264347078, 604807628,
   770255983, 1249150122, 1555081692, 1996064986, 2554220882,
   2821834349, 2952996808, 3210313671, 3336571891, 3584528711,
   113926993, 338241895, 666307205, 773529912, 1294757372,
   1396182291, 1695183700, 1986661051, 2177026350, 2456956037,
   2730485921, 2820302411, 3259730800, 3345764771, 3516065817,
   3600352804, 4094571909, 275423344, 430227734, 506948616,
   659060556, 883997877, 958139571, 1322822218, 1537002063,
   1747873779, 1955562222, 2024104815, 2227730452, 2361852424,
   2428436474, 2756734187, 3204031479, 3329325298]

/-- The SHA-256 initial hash value. -/
def sha256H0 : List Nat :=
  [1779033703, 3144134277, 1013904242, 2773480762,
   1359893119, 2600822924, 528734635, 1541459225]

/-- The eight working variables of the SHA-256 compression loop. -/
structure SHAState where
  a : Nat
  b : Nat
  c : Nat
  d : Nat
  e : Nat
  f : Nat
  g : Nat
  h : Nat

/-- One SHA-256 compression round with round constant `k` and schedule
word `wt`. -/
def sha256Round (k wt : Nat) (s : SHAState) : SHAState :=
  let t1 := w32 (s.h + shaBigS1 s.e + shaCh s.e s.f s.g + k + wt)
  let t2 := w32 (shaBigS0 s.a + shaMaj s.a s.b s.c)
  { a := w32 (t1 + t2), b := s.a, c := s.b, d := s.c,
    e := w32 (s.d + t1), f := s.e, g := s.f, h := s.g }

/-- Extend the 16 words of a block to the 64-entry message schedule. -/
def sha256Schedule (block : List Nat) : List Nat :=
  (List.range 48).foldl
    (fun ws t =>
      ws ++ [w32 (shaSmallS1 (ws.getD (t + 14) 0) + ws.getD (t + 9) 0 +
                  shaSmallS0 (ws.getD (t + 1) 0) + ws.getD t 0)])
    block

/-- Compress one 16-word block into the running 8-word hash value. -/
def sha256Compress (h : List Nat) (block : List Nat) : List Nat :=
  let ws := sha256Schedule block
  let s0 : SHAState :=
    { a := h.getD 0 0, b := h.getD 1 0, c := h.getD 2 0, d := h.getD 3 0,
      e := h.getD 4 0, f := h.getD 5 0, g := h.getD 6 0, h := h.getD 7 0 }
  let s := (List.range 64).foldl
    (fun s t => sha256Round (sha256K.getD t 0) (ws.getD t 0) s) s0
  [w32 (h.getD 0 0 + s.a), w32 (h.getD 1 0 + s.b), w32 (h.getD 2 0 + s.c),
   w32 (h.getD 3 0 + s.d), w32 (h.getD 4 0 + s.e), w32 (h.getD 5 0 + s.f),
   w32 (h.getD 6 0 + s.g), w32 (h.getD 7 0 + s.h)]

/-- SHA-256 padding: append `0x80`, zeros to 56 mod 64, and the bit length
as eight big-endian bytes. -/
def sha256Pad (msg : List Nat) : List Nat :=
  let L := msg.length
  let k := (120 - ((L + 1) % 64)) % 64
  msg ++ [128] ++ List.replicate k 0 ++
    (List.range 8).map (fun i => ((8 * L) >>> (8 * (7 - i))) % 256)

/-- Big-endian 4-byte groups to 32-bit words. -/
def bytesToWords (bs : List Nat) : List Nat :=
  (List.range (bs.length / 4)).map
    (fun i => ((bs.getD (4 * i) 0) <<< 24) + ((bs.getD (4 * i + 1) 0) <<< 16) +
              ((bs.getD (4 * i + 2) 0) <<< 8) + bs.getD (4 * i + 3) 0)

/-- The SHA-256 digest of a byte string, as eight 32-bit words. -/
def sha256Words (msg : List Nat) : List Nat :=
  let padded := sha256Pad msg
  let blocks := (List.range (padded.length / 64)).map
    (fun i => (padded.drop (64 * i)).take 64)
  blocks.foldl (fun h b => sha256Compress h (bytesToWords b)) sha256H0

/-- A lowercase hexadecimal digit. -/
def hexChar (n : Nat) : Char := "0123456789abcdef".toList.getD n '0'

/-- A 32-bit word as eight lowercase hexadecimal characters. -/
def wordHex (x : Nat) : String :=
  String.mk ((List.range 8).map (fun i => hexChar ((x >>> (4 * (7 - i))) % 16)))

/-- `hashlib.sha256(bytes).hexdigest()`: the 64-character lowercase
hexadecimal SHA-256 digest. -/
def sha256hex (msg : List Nat) : String :=
  String.join ((sha256Words msg).map wordHex)

/-- Four hexadecimal digits, for `\uXXXX` escapes. -/
def u4hex (n : Nat) : String :=
  String.mk [hexChar ((n >>> 12) % 16), hexChar ((n >>> 8) % 16),
             hexChar ((n >>> 4) % 16), hexChar (n % 16)]

/-- `json.dumps` escaping of one character (default `ensure_ascii=True`:
quote, backslash and control characters escaped, non-ASCII as `\uXXXX`
with surrogate pairs beyond the BMP). -/
def jsonEscapeChar (c : Char) : String :=
  let n := c.toNat
  if n = 34 then "\\\""
  else if n = 92 then "\\\\"
  else if n = 8 then "\\b"
  else if n = 9 then "\\t"
  else if n = 10 then "\\n"
  else if n = 12 then "\\f"
  else if n = 13 then "\\r"
  else if n < 32 then "\\u" ++ u4hex n
  else if n < 128 then String.singleton c
  else if n < 65536 then "\\u" ++ u4hex n
  else "\\u" ++ u4hex (55296 + (n - 65536) / 1024) ++
       "\\u" ++ u4hex (56320 + (n - 65536) % 1024)

/-- `json.dumps` of a string. -/
def jsonStr (s : String) : String :=
  "\"" ++ String.join (s.toList.map jsonEscapeChar) ++ "\""

/-- `json.dumps` of a list of strings (default separators). -/
def jsonStrList (xs : List String) : String :=
  "[" ++ String.intercalate ", " (xs.map jsonStr) ++ "]"

/-- `json.dumps` of a list of lists of strings. -/
def jsonListList (xs : List (List String)) : String :=
  "[" ++ String.intercalate ", " (xs.map jsonStrList) ++ "]"

/-- `json.dumps` of a string-to-string dict, in insertion order. -/
def jsonStrObj (kvs : List (String × String)) : String :=
  "\x7b" ++
    String.intercalate ", " (kvs.map (fun kv => jsonStr kv.1 ++ ": " ++ jsonStr kv.2)) ++
  "\x7d"

/-- `json.dumps` of the `coreml_compile_spec` dict built by `preprocess`:
the four keys in insertion order, the inputs and outputs as lists of
`[name, str(dtype), str(shape)]` triples, the config and metadata as
string dicts. -/
def coremlExtraJson (inputs outputs : List (List String))
    (config metadata : List (String × String)) : String :=
  "\x7b" ++ jsonStr "inputs" ++ ": " ++ jsonListList inputs ++
  ", " ++ jsonStr "outputs" ++ ": " ++ jsonListList outputs ++
  ", " ++ jsonStr "config" ++ ": " ++ jsonStrObj config ++
  ", " ++ jsonStr "metadata" ++ ": " ++ jsonStrObj metadata ++ "\x7d"

/-- One entry of `spec.description.output`: the parts of an output
description `preprocess` reads. -/
structure MLOutputDesc where
  name : String
deriving DecidableEq, Repr

instance : Inhabited MLOutputDesc := ⟨⟨""⟩⟩

/-- The parts of a compiled `coremltools` model spec `preprocess` reads:
its output descriptions and its specification version. -/
structure MLSpec where
  output : List MLOutputDesc
  specificationVersion : Int
deriving DecidableEq, Repr

/-- The third-party compiler toolchain, abstracted: `convert` is
`ct.convert(...)` followed by `.get_spec()` on the reconstructed scripted
module (identified by a token), `metaVersionOf`/`metaSourceOf` read the
two `user_defined_metadata` keys of `ct.models.model.MLModel(spec)`, and
`serialize` is `spec.SerializeToString()`.  The claims hold for every
instantiation. -/
structure CTEnv where
  convert : Nat → List MilTensorType → MLSpec
  metaVersionOf : MLSpec → String
  metaSourceOf : MLSpec → String
  serialize : MLSpec → List Nat

/-- The input-conversion loop of `preprocess`: each input spec becomes a
MIL tensor type named `input_<index>` in declaration order; the first
unsupported dtype raises (`none`). -/
def milInputs (input_specs : List (PyShape × Int)) : Option (List MilTensorType) :=
  (input_specs.enum.map
    (fun p => _convert_to_mil_type p.2.1 p.2.2 ("input_" ++ toString p.1))).allSome

/-- The `inputs` record built by `preprocess`: one
`[name, str(dtype), str(shape)]` triple per input spec, named
`input_<index>` in declaration order. -/
def inputsRecord (input_specs : List (PyShape × Int)) : List (List String) :=
  input_specs.enum.map
    (fun p => ["input_" ++ toString p.1, toString p.2.2, p.2.1.pystr])

/-- The `outputs` record built by `preprocess`: one
`[name, str(dtype), str(shape)]` triple per declared output spec, named
from the compiled spec's output descriptions. -/
def outputsRecord (output_specs : List (PyShape × Int)) (spec : MLSpec) :
    List (List String) :=
  output_specs.enum.map
    (fun p => [(spec.output.getD p.1 default).name, toString p.2.2, p.2.1.pystr])

/-- The `config` record built by `preprocess`. -/
def configRecord (spec : MLSpec) (backend : String) (allow_low_precision : Bool) :
    List (String × String) :=
  [("spec_ver", toString spec.specificationVersion),
   ("backend", backend),
   ("allow_low_precision", pyStrBool allow_low_precision)]

/-- The `metadata` record built by `preprocess`. -/
def metadataRecord (env : CTEnv) (spec : MLSpec) : List (String × String) :=
  [("coremltool_ver", env.metaVersionOf spec),
   ("torch_ver", env.metaSourceOf spec)]

/-- The value `preprocess` returns: a dict with exactly the keys `model`
(the serialized byte blob), `hash` and `extra`. -/
structure PreprocessResult where
  model : List Nat
  hash : String
  extra : String
deriving DecidableEq, Repr

/-- Embeds `preprocess`: reads `compile_spec["forward"]` (`KeyError` when
missing), converts the input specs to named MIL tensor types (`KeyError`
on an unsupported dtype), compiles the scripted module through the
third-party toolchain, asserts that the compiled spec declares as many
outputs as `compile_spec["forward"]` does, builds the input/output/config/
metadata records, serializes the spec, and returns the serialized blob,
its hexadecimal SHA-256 digest and the JSON side-record.  (The `print`
of the rebuilt model writes to stdout only.) -/
def preprocess (env : CTEnv) (script_module : Nat)
    (compile_spec : List (String × (List (PyShape × Int) × List (PyShape × Int) × String × Bool))) :
    Except PErr PreprocessResult :=
  match compile_spec.lookup "forward" with
  | none => Except.error (PErr.keyError "forward")
  | some (input_specs, output_specs, backend, allow_low_precision) =>
    match milInputs input_specs with
    | none => Except.error (PErr.keyError "torch_to_mil_types")
    | some mil_inputs =>
      let spec := env.convert script_module mil_inputs
      if spec.output.length = output_specs.length then
        let extra := coremlExtraJson (inputsRecord input_specs)
          (outputsRecord output_specs spec)
          (configRecord spec backend allow_low_precision)
          (metadataRecord env spec)
        let mlmodel := env.serialize spec
        Except.ok { model := mlmodel, hash := sha256hex mlmodel, extra := extra }
      else
        Except.error (PErr.assertionError "len(spec.description.output) == len(output_specs)")

/-- The entry of the global stream table for a device index (`none` both
when the table is unallocated and when the slot is empty). -/
def streamEntry (t : Option (List (Option Nat))) (d : Nat) : Option Nat :=
  (t.getD []).getD d none

/-- A world with an available accelerator runtime, two devices, and a
still-unallocated stream table. -/
def wGpu : World :=
  { availType := some "cuda", isAvailable := true, deviceCount := 2,
    currentStream := fun _ => 7, streams := none, nextId := 0, log := [] }

/-- A world whose stream table already holds a stream for device 1. -/
def wTbl : World := { wGpu with streams := some [none, some 42] }

/-- A CPU tensor of shape `[2]`. -/
def tCpu : Tensor := { device := DeviceT.cpu, shape := [2] }

/-- A device tensor of shape `[2]` on device 0. -/
def tG0 : Tensor := { device := DeviceT.gpu 0, shape := [2] }

/-- A device tensor of shape `[2]` on device 1. -/
def tG1 : Tensor := { device := DeviceT.gpu 1, shape := [2] }

/-- A scalar tensor on device 0. -/
def tS0 : Tensor := { device := DeviceT.gpu 0, shape := [] }

/-- A scalar tensor on device 1. -/
def tS1 : Tensor := { device := DeviceT.gpu 1, shape := [] }

/-- The context `Broadcast.forward wGpu [0, 1] [tG0]` records. -/
def bctx1 : BroadcastCtx :=
  { target_gpus := [0, 1], num_inputs := some 1, input_device := some 0 }

/-- The context `ReduceAddCoalesced.forward wGpu 0 1 [tG0, tG1]` records. -/
def rctx1 : ReduceAddCoalescedCtx := { target_gpus := [0, 1] }

/-- The context `Gather.forward wGpu GatherDest.cpuDest 0 [tG0, tG1]`
records. -/
def gctx1 : GatherCtx :=
  { target_device := GatherDest.cpuDest, dim := 0, input_gpus := [0, 1],
    unsqueezed_scalar := false, input_sizes := [2, 2] }

/-- The context `Scatter.forward wGpu [0, 1] (some [1, 1]) 0 tCpu`
records. -/
def sctx1 : ScatterCtx := { dim := 0, input_device := -1 }

/-- A compiler environment whose compiled spec declares one output. -/
def envC6 : CTEnv :=
  { convert := fun _ _ => { output := [{ name := "var_1" }], specificationVersion := 5 },
    metaVersionOf := fun _ => "6.1",
    metaSourceOf := fun _ => "torch==1.10",
    serialize := fun _ => [1, 2, 3] }

/-- A compiler environment whose compiled spec declares no outputs. -/
def envC7 : CTEnv :=
  { convert := fun _ _ => { output := [], specificationVersion := 5 },
    metaVersionOf := fun _ => "6.1",
    metaSourceOf := fun _ => "torch==1.10",
    serialize := fun _ => [1, 2, 3] }

/-- A compile spec with one input spec and one output spec under
`"forward"`. -/
def csC6 : List (String × (List (PyShape × Int) × List (PyShape × Int) × String × Bool)) :=
  [("forward", ([(PyShape.tuple [PyItem.int 1], ScalarType.Float)],
                [(PyShape.tuple [PyItem.int 1], ScalarType.Float)],
                CoreMLComputeUnit.CPU, true))]

/-- The MIL input list `milInputs` produces for `csC6`. -/
def milC6 : List MilTensorType :=
  [{ shape := MilShape.plain (PyShape.tuple [PyItem.int 1]),
     dtype := MilDType.fp32, name := "input_0" }]

/-! Helper lemmas. -/

/-- `List.set` does not disturb other positions (w.r.t. `getD`). -/
theorem getD_set_ne (l : List (Option Nat)) (a : Option Nat) (i j : Nat)
    (h : i ≠ j) : (l.set i a).getD j none = l.getD j none := by
  induction l generalizing i j with
  | nil => simp
  | cons x xs ih =>
    cases i with
    | zero =>
      cases j with
      | zero => exact absurd rfl h
      | succ j' => simp
    | succ i' =>
      cases j with
      | zero => simp
      | succ j' => simpa using ih i' j' (fun hc => h (by simp [hc]))


/-- `_get_stream_cached` changes only the stream table and the id counter. -/
theorem getStream_cached_frame (w : World) (d : Int) :
    (_get_stream_cached w d).1.log = w.log ∧
    (_get_stream_cached w d).1.currentStream = w.currentStream ∧
    (_get_stream_cached w d).1.availType = w.availType ∧
    (_get_stream_cached w d).1.isAvailable = w.isAvailable ∧
    (_get_stream_cached w d).1.deviceCount = w.deviceCount := by
  by_cases hd : d = -1
  · simp [_get_stream_cached, hd]
  · rcases hmatch : (w.streams.getD (List.replicate w.deviceCount none))[d.toNat]?.getD none
      with _ | s <;>
    · simp only [_get_stream_cached, if_neg hd, List.getD_eq_getElem?_getD]
      rw [hmatch]
      exact ⟨rfl, rfl, rfl, rfl, rfl⟩

/-- `getStreams` changes only the stream table and the id counter. -/
theorem getStreams_frame (w : World) (devices : List Int) :
    (getStreams w devices).1.log = w.log ∧
    (getStreams w devices).1.currentStream = w.currentStream := by
  induction devices generalizing w with
  | nil => exact ⟨rfl, rfl⟩
  | cons d rest ih =>
    have h1 := getStream_cached_frame w d
    have h2 := ih (_get_stream_cached w d).1
    exact ⟨by rw [getStreams]; rw [h2.1, h1.1], by rw [getStreams]; rw [h2.2, h1.2.1]⟩

/-- `getStreams` returns one stream slot per requested device. -/
theorem getStreams_length (w : World) (devices : List Int) :
    (getStreams w devices).2.length = devices.length := by
  induction devices generalizing w with
  | nil => rfl
  | cons d rest ih => simpa [getStreams] using ih (_get_stream_cached w d).1

/-- `_get_stream_cached` never erases an existing stream-table entry. -/
theorem getStream_cached_mono (w : World) (dev : Int) (d s : Nat)
    (h : streamEntry w.streams d = some s) :
    streamEntry (_get_stream_cached w dev).1.streams d = some s := by
  by_cases hdev : dev = -1
  · simpa [_get_stream_cached, hdev] using h
  · rcases hw : w.streams with _ | tbl
    · simp [streamEntry, hw] at h
    · simp only [streamEntry, hw, Option.getD_some, List.getD_eq_getElem?_getD] at h
      rcases hmatch : tbl[dev.toNat]?.getD none with _ | s'
      · have hne : dev.toNat ≠ d := by
          intro hc
          rw [hc] at hmatch
          rw [hmatch] at h
          exact Option.noConfusion h
        have hgoal := getD_set_ne tbl (some w.nextId) dev.toNat d hne
        simp only [List.getD_eq_getElem?_getD] at hgoal
        simp only [_get_stream_cached, if_neg hdev, streamEntry, hw, Option.getD_some,
          List.getD_eq_getElem?_getD]
        rw [hmatch]
        simpa [hgoal] using h
      · simp only [_get_stream_cached, if_neg hdev, streamEntry, hw, Option.getD_some,
          List.getD_eq_getElem?_getD]
        rw [hmatch]
        exact h

/-- `getStreams` never erases an existing stream-table entry. -/
theorem getStreams_mono (w : World) (devices : List Int) (d s : Nat)
    (h : streamEntry w.streams d = some s) :
    streamEntry (getStreams w devices).1.streams d = some s := by
  induction devices generalizing w with
  | nil => exact h
  | cons dv rest ih =>
    rw [getStreams]
    exact ih (_get_stream_cached w dv).1 (getStream_cached_mono w dv d s h)

/-- The background-stream acquisition condition of `Scatter.forward` holds
exactly when the runtime is available and the input is a CPU tensor. -/
theorem scatter_acquire_iff (w : World) (input : Tensor) :
    (w.isAvailable &&
       (if input.device != DeviceT.cpu then input.get_device else -1) == -1) = true
      ↔ (w.isAvailable = true ∧ input.device = DeviceT.cpu) := by
  rcases input with ⟨dev, shape⟩
  cases dev with
  | cpu => simp [Tensor.get_device]
  | gpu i =>
    simp [Tensor.get_device]

/-- `getD` over an `enumFrom`-indexed map picks out the function applied to
the index-element pair. -/
theorem enumFrom_map_getD {α β : Type} [Inhabited α] (l : List α) (n : Nat)
    (f : Nat × α → β) (i : Nat) (d : β) (h : i < l.length) :
    ((l.enumFrom n).map f).getD i d = f (n + i, l.getD i default) := by
  induction l generalizing n i with
  | nil => simp at h
  | cons x xs ih =>
    cases i with
    | zero => simp [List.enumFrom]
    | succ j =>
      have hj : j < xs.length := by simpa using h
      have := ih (n + 1) j hj
      have harith : n + 1 + j = n + (j + 1) := by omega
      simpa [List.enumFrom, harith] using this

/-- `getD` over an `enum`-indexed map picks out the function applied to the
index-element pair. -/
theorem enum_map_getD {α β : Type} [Inhabited α] (l : List α)
    (f : Nat × α → β) (i : Nat) (d : β) (h : i < l.length) :
    ((l.enum.map f).getD i d) = f (i, l.getD i default) := by
  simpa using enumFrom_map_getD l 0 f i d h

/-- Summing the constant-one image of a list counts its elements. -/
theorem sum_map_one {α : Type} (l : List α) :
    (l.map (fun _ => (1 : Nat))).sum = l.length := by
  induction l with
  | nil => rfl
  | cons x xs ih => simp [ih, Nat.add_comm]

/-! Claim theorems. -/

/-- C8: `Broadcast.forward` called with zero input tensors returns the
empty tuple without invoking the communication library (the world — in
particular its call log — is returned unchanged) and without recording the
input count or the input device on the context. -/
theorem broadcast_forward_empty (w : World) (target_gpus : List Int) :
    Broadcast.forward w target_gpus [] =
      (w, Except.ok ({ target_gpus := target_gpus.map _get_device_index,
                       num_inputs := none, input_device := none }, [])) := rfl

/-- C10: `_check_enumerated_shape` accepts a shape exactly when every
element of the shape is a list or a tuple; consequently an empty shape is
vacuously accepted and `_convert_to_mil_type` wraps it as an
enumerated-shapes type rather than passing it through as a plain shape. -/
theorem check_enumerated_shape_spec :
    (∀ shape : PyShape,
       _check_enumerated_shape shape = true ↔ ∀ s ∈ shape.items, s.isSeq = true)
    ∧ (∀ (shape : PyShape) (dtype : Int) (name : String) (d : MilDType),
        shape.items = [] → torch_to_mil_types dtype = some d →
        _convert_to_mil_type shape dtype name =
          some { shape := MilShape.enumerated shape, dtype := d, name := name }) := by
  constructor
  · intro shape
    simp [_check_enumerated_shape, List.all_eq_true]
  · intro shape dtype name d hitems hdty
    simp [_convert_to_mil_type, _check_enumerated_shape, hitems, hdty]

/-- Witness for C10: the empty tuple shape with a `Float` dtype is wrapped
as an enumerated-shapes type. -/
theorem check_enumerated_shape_spec_witness :
    (PyShape.tuple []).items = [] ∧
    torch_to_mil_types ScalarType.Float = some MilDType.fp32 ∧
    _convert_to_mil_type (PyShape.tuple []) ScalarType.Float "input_0" =
      some { shape := MilShape.enumerated (PyShape.tuple []),
             dtype := MilDType.fp32, name := "input_0" } :=
  ⟨rfl, rfl,
   check_enumerated_shape_spec.2 (PyShape.tuple []) ScalarType.Float "input_0"
     MilDType.fp32 rfl rfl⟩

/-- C5: `Broadcast.forward` and `Gather.forward` raise their assertion
error exactly when some input tensor resides on the CPU, and raise nothing
else on CPU-free inputs; `_get_device_impl` raises `ImportError` exactly
when no accelerator device type is available; on these failures the world
is returned unchanged (no state is modified). -/
theorem error_passthrough :
    (∀ (w : World) (target_gpus : List Int) (inputs : List Tensor),
       ((∃ t ∈ inputs, t.device = DeviceT.cpu) ↔
          (Broadcast.forward w target_gpus inputs).2 =
            Except.error (PErr.assertionError broadcastAssertMsg))
       ∧ ((∃ t ∈ inputs, t.device = DeviceT.cpu) →
            (Broadcast.forward w target_gpus inputs).1 = w)
       ∧ ((∀ t ∈ inputs, t.device ≠ DeviceT.cpu) →
            ∃ r, (Broadcast.forward w target_gpus inputs).2 = Except.ok r))
    ∧ (∀ (w : World) (target_device : GatherDest) (dim : Int) (inputs : List Tensor),
       ((∃ t ∈ inputs, t.device = DeviceT.cpu) ↔
          (Gather.forward w target_device dim inputs).2 =
            Except.error (PErr.assertionError gatherAssertMsg))
       ∧ ((∃ t ∈ inputs, t.device = DeviceT.cpu) →
            (Gather.forward w target_device dim inputs).1 = w)
       ∧ ((∀ t ∈ inputs, t.device ≠ DeviceT.cpu) →
            ∃ r, (Gather.forward w target_device dim inputs).2 = Except.ok r))
    ∧ (∀ w : World,
        _get_device_impl w = Except.error (PErr.importError importErrorMsg) ↔
          w.availType = none) := by
  refine ⟨?_, ?_, ?_⟩
  · intro w tg inputs
    by_cases hall : inputs.all (fun i => i.device != DeviceT.cpu)
    · have hno : ∀ t ∈ inputs, t.device ≠ DeviceT.cpu := by
        simpa [List.all_eq_true] using hall
      refine ⟨⟨fun ⟨t, ht, hc⟩ => absurd hc (hno t ht), fun herr => ?_⟩,
              fun ⟨t, ht, hc⟩ => absurd hc (hno t ht), fun _ => ?_⟩
      · rcases inputs with _ | ⟨i0, rest⟩ <;>
          simp [Broadcast.forward, hall] at herr
      · rcases inputs with _ | ⟨i0, rest⟩ <;>
          simp [Broadcast.forward, hall]
    · have hex : ∃ t ∈ inputs, t.device = DeviceT.cpu := by
        by_contra hno
        push_neg at hno
        exact hall (by simpa [List.all_eq_true] using hno)
      refine ⟨⟨fun _ => ?_, fun _ => hex⟩, fun _ => ?_, fun hno => ?_⟩
      · simp [Broadcast.forward, hall]
      · simp [Broadcast.forward, hall]
      · rcases hex with ⟨t, ht, hc⟩
        exact absurd hc (hno t ht)
  · intro w td dim inputs
    by_cases hall : inputs.all (fun i => i.device != DeviceT.cpu)
    · have hno : ∀ t ∈ inputs, t.device ≠ DeviceT.cpu := by
        simpa [List.all_eq_true] using hall
      refine ⟨⟨fun ⟨t, ht, hc⟩ => absurd hc (hno t ht), fun herr => ?_⟩,
              fun ⟨t, ht, hc⟩ => absurd hc (hno t ht), fun _ => ?_⟩
      · simp [Gather.forward, hall] at herr
      · simp [Gather.forward, hall]
    · have hex : ∃ t ∈ inputs, t.device = DeviceT.cpu := by
        by_contra hno
        push_neg at hno
        exact hall (by simpa [List.all_eq_true] using hno)
      refine ⟨⟨fun _ => ?_, fun _ => hex⟩, fun _ => ?_, fun hno => ?_⟩
      · simp [Gather.forward, hall]
      · simp [Gather.forward, hall]
      · rcases hex with ⟨t, ht, hc⟩
        exact absurd hc (hno t ht)
  · intro w
    rcases hav : w.availType with _ | τ <;> simp [_get_device_impl, hav]

/-- Witness for C5: one concrete CPU tensor makes `Broadcast.forward`
raise its assertion error and leave the world untouched. -/
theorem error_passthrough_witness :
    (∃ t ∈ [tCpu], t.device = DeviceT.cpu) ∧
    (Broadcast.forward wGpu [0] [tCpu]).2 =
      Except.error (PErr.assertionError broadcastAssertMsg) ∧
    (Broadcast.forward wGpu [0] [tCpu]).1 = wGpu :=
  ⟨⟨tCpu, List.mem_singleton.mpr rfl, rfl⟩,
   (error_passthrough.1 wGpu [0] [tCpu]).1.mp ⟨tCpu, List.mem_singleton.mpr rfl, rfl⟩,
   (error_passthrough.1 wGpu [0] [tCpu]).2.1 ⟨tCpu, List.mem_singleton.mpr rfl, rfl⟩⟩

/-- C1: `Broadcast` and `ReduceAddCoalesced` are mutually adjoint — for
every `Broadcast.forward` over a non-empty tuple of device tensors the
saved context records the first input's device and the input count, and
the backward pass is exactly one `None` (for `target_gpus`) followed by
`ReduceAddCoalesced.apply` of the incoming gradients at those recorded
values; and for every successful `ReduceAddCoalesced.forward` the saved
context records the device of every `num_inputs`-th gradient, and the
backward pass is exactly two `None`s (for `destination` and `num_inputs`)
followed by `Broadcast.apply` of the incoming gradients at the recorded
target devices. -/
theorem broadcast_reduceAdd_adjoint :
    (∀ (w wb : World) (target_gpus : List Int) (i0 : Tensor)
       (rest grads : List Tensor) (ctx : BroadcastCtx) (outs : List Tensor),
       (Broadcast.forward w target_gpus (i0 :: rest)).2 = Except.ok (ctx, outs) →
       ctx.input_device = some i0.get_device ∧
       ctx.num_inputs = some (i0 :: rest).length ∧
       Broadcast.backward wb ctx grads =
         ((ReduceAddCoalesced.applyF wb i0.get_device (i0 :: rest).length grads).1,
          (ReduceAddCoalesced.applyF wb i0.get_device (i0 :: rest).length grads).2.map
            (fun outs2 => none :: outs2.map some)))
    ∧ (∀ (w wb : World) (destination : Int) (num_inputs : Nat)
         (grads grad_outputs : List Tensor)
         (rctx : ReduceAddCoalescedCtx) (routs : List Tensor),
       (ReduceAddCoalesced.forward w destination num_inputs grads).2 =
           Except.ok (rctx, routs) →
       rctx.target_gpus =
         (rangeStep grads.length num_inputs).map
           (fun i => (grads.getD i default).get_device) ∧
       ReduceAddCoalesced.backward wb rctx grad_outputs =
         ((Broadcast.applyF wb rctx.target_gpus grad_outputs).1,
          (Broadcast.applyF wb rctx.target_gpus grad_outputs).2.map
            (fun outs2 => none :: none :: outs2.map some))) := by
  constructor
  · intro w wb tg i0 rest grads ctx outs hfwd
    by_cases hall : (i0 :: rest).all (fun i => i.device != DeviceT.cpu)
    · simp only [Broadcast.forward, hall, if_true, Except.ok.injEq,
        Prod.mk.injEq] at hfwd
      obtain ⟨hctx, houts⟩ := hfwd
      subst hctx
      exact ⟨rfl, rfl, rfl⟩
    · simp [Broadcast.forward, hall] at hfwd
  · intro w wb dest n grads gouts rctx routs hfwd
    by_cases hn : n = 0
    · simp [ReduceAddCoalesced.forward, hn] at hfwd
    · simp only [ReduceAddCoalesced.forward, hn, if_false, Except.ok.injEq,
        Prod.mk.injEq] at hfwd
      obtain ⟨hctx, houts⟩ := hfwd
      subst hctx
      exact ⟨rfl, rfl⟩

/-- Witness for C1: a concrete broadcast of one device tensor to two
devices and the matching reduce-add. -/
theorem broadcast_reduceAdd_adjoint_witness :
    ((Broadcast.forward wGpu [0, 1] [tG0]).2 = Except.ok (bctx1, [tG0, tG1])
     ∧ (bctx1.input_device = some tG0.get_device ∧
        bctx1.num_inputs = some [tG0].length ∧
        Broadcast.backward wGpu bctx1 [tG0, tG1] =
          ((ReduceAddCoalesced.applyF wGpu tG0.get_device [tG0].length [tG0, tG1]).1,
           (ReduceAddCoalesced.applyF wGpu tG0.get_device [tG0].length [tG0, tG1]).2.map
             (fun outs2 => none :: outs2.map some))))
    ∧ ((ReduceAddCoalesced.forward wGpu 0 1 [tG0, tG1]).2 = Except.ok (rctx1, [tG0])
       ∧ (rctx1.target_gpus =
            (rangeStep [tG0, tG1].length 1).map
              (fun i => ([tG0, tG1].getD i default).get_device) ∧
          ReduceAddCoalesced.backward wGpu rctx1 [tG0] =
            ((Broadcast.applyF wGpu rctx1.target_gpus [tG0]).1,
             (Broadcast.applyF wGpu rctx1.target_gpus [tG0]).2.map
               (fun outs2 => none :: none :: outs2.map some)))) :=
  ⟨⟨rfl, broadcast_reduceAdd_adjoint.1 wGpu wGpu [0, 1] tG0 [] [tG0, tG1]
          bctx1 [tG0, tG1] rfl⟩,
   ⟨rfl, broadcast_reduceAdd_adjoint.2 wGpu wGpu 0 1 [tG0, tG1] [tG0]
          rctx1 [tG0] rfl⟩⟩

/-- C2: `Gather` and `Scatter` are mutually adjoint — for every
`Gather.forward` along `dim` of device tensors (outside the
all-scalars-at-dim-0 unsqueeze case) the saved context records the input
devices and their extents along `dim`, and the backward pass is exactly
two `None`s (for `target_device` and `dim`) followed by `Scatter.apply` of
the incoming gradient over exactly those devices with exactly those chunk
sizes along the same dimension; and for every successful `Scatter.forward`
the saved context records the input device (`-1` for a CPU input) and the
dimension, and the backward pass is exactly three `None`s followed by
`Gather.apply` of the incoming gradients at the recorded input device
along the recorded dimension. -/
theorem gather_scatter_adjoint :
    (∀ (w wb : World) (target_device : GatherDest) (dim : Int)
       (inputs : List Tensor) (g : Tensor) (ctx : GatherCtx) (out : Tensor),
       (inputs.all (fun t => t.ndim == 0) && dim == 0) = false →
       (Gather.forward w target_device dim inputs).2 = Except.ok (ctx, out) →
       ctx.dim = dim ∧
       ctx.input_gpus = inputs.map Tensor.get_device ∧
       ctx.input_sizes = inputs.map (fun i => i.size dim) ∧
       Gather.backward wb ctx g =
         ((Scatter.applyF wb (inputs.map Tensor.get_device)
             (some (inputs.map (fun i => i.size dim))) dim g).1,
          (Scatter.applyF wb (inputs.map Tensor.get_device)
             (some (inputs.map (fun i => i.size dim))) dim g).2.map
            (fun scattered => none :: none :: scattered.map some)))
    ∧ (∀ (w wb : World) (target_gpus : List Int) (chunk_sizes : Option (List Nat))
         (dim : Int) (input : Tensor) (grad_outputs : List Tensor)
         (sctx : ScatterCtx) (souts : List Tensor),
       (Scatter.forward w target_gpus chunk_sizes dim input).2 =
           Except.ok (sctx, souts) →
       sctx.dim = dim ∧
       sctx.input_device =
         (if input.device != DeviceT.cpu then input.get_device else -1) ∧
       Scatter.backward wb sctx grad_outputs =
         ((Gather.applyF wb (GatherDest.index sctx.input_device) sctx.dim
             grad_outputs).1,
          (Gather.applyF wb (GatherDest.index sctx.input_device) sctx.dim
             grad_outputs).2.map (fun gt => [none, none, none, some gt]))) := by
  constructor
  · intro w wb td dim inputs g ctx out hflag hfwd
    by_cases hall : inputs.all (fun i => i.device != DeviceT.cpu)
    · simp only [Gather.forward, hall, if_true, hflag, Bool.false_eq_true,
        if_false, Except.ok.injEq, Prod.mk.injEq] at hfwd
      obtain ⟨hctx, hout⟩ := hfwd
      subst hctx
      refine ⟨rfl, rfl, rfl, ?_⟩
      simp only [Gather.backward, hflag]
      rfl
    · simp [Gather.forward, hall] at hfwd
  · intro w wb tg cs dim input gouts sctx souts hfwd
    rcases hav : w.availType with _ | τ
    · simp [Scatter.forward, _get_device_impl, hav] at hfwd
    · simp only [Scatter.forward, _get_device_impl, hav, Except.ok.injEq,
        Prod.mk.injEq] at hfwd
      obtain ⟨hctx, houts⟩ := hfwd
      subst hctx
      exact ⟨rfl, rfl, rfl⟩

/-- Witness for C2: a concrete gather of two device vectors to the CPU and
a concrete scatter of a CPU tensor to two devices. -/
theorem gather_scatter_adjoint_witness :
    (([tG0, tG1].all (fun t => t.ndim == 0) && (0 : Int) == 0) = false
     ∧ (Gather.forward wGpu GatherDest.cpuDest 0 [tG0, tG1]).2 =
         Except.ok (gctx1, { device := DeviceT.cpu, shape := [4] })
     ∧ (gctx1.dim = 0 ∧
        gctx1.input_gpus = [tG0, tG1].map Tensor.get_device ∧
        gctx1.input_sizes = [tG0, tG1].map (fun i => i.size 0) ∧
        Gather.backward wGpu gctx1 { device := DeviceT.cpu, shape := [4] } =
          ((Scatter.applyF wGpu ([tG0, tG1].map Tensor.get_device)
              (some ([tG0, tG1].map (fun i => i.size 0))) 0
              { device := DeviceT.cpu, shape := [4] }).1,
           (Scatter.applyF wGpu ([tG0, tG1].map Tensor.get_device)
              (some ([tG0, tG1].map (fun i => i.size 0))) 0
              { device := DeviceT.cpu, shape := [4] }).2.map
             (fun scattered => none :: none :: scattered.map some))))
    ∧ ((Scatter.forward wGpu [0, 1] (some [1, 1]) 0 tCpu).2 =
         Except.ok (sctx1, [{ device := DeviceT.gpu 0, shape := [1] },
                            { device := DeviceT.gpu 1, shape := [1] }])
       ∧ (sctx1.dim = 0 ∧
          sctx1.input_device =
            (if tCpu.device != DeviceT.cpu then tCpu.get_device else -1) ∧
          Scatter.backward wGpu sctx1 [tG0] =
            ((Gather.applyF wGpu (GatherDest.index sctx1.input_device) sctx1.dim
                [tG0]).1,
             (Gather.applyF wGpu (GatherDest.index sctx1.input_device) sctx1.dim
                [tG0]).2.map (fun gt => [none, none, none, some gt])))) :=
  ⟨⟨rfl, rfl,
    gather_scatter_adjoint.1 wGpu wGpu GatherDest.cpuDest 0 [tG0, tG1]
      { device := DeviceT.cpu, shape := [4] } gctx1
      { device := DeviceT.cpu, shape := [4] } rfl rfl⟩,
   ⟨rfl,
    gather_scatter_adjoint.2 wGpu wGpu [0, 1] (some [1, 1]) 0 tCpu [tG0]
      sctx1 [{ device := DeviceT.gpu 0, shape := [1] },
             { device := DeviceT.gpu 1, shape := [1] }] rfl⟩⟩

/-- C3 counterexample: scattering a CPU tensor to device 0 with the
runtime available and the stream table unallocated creates a background
stream — the global per-device stream table is changed by the call
(`none` before, an allocated table with a fresh stream for device 0
after). -/
theorem scatter_creates_stream_cex :
    (Scatter.forward wGpu [0] (some [2]) 0 tCpu).1.streams ≠ wGpu.streams ∧
    (Scatter.forward wGpu [0] (some [2]) 0 tCpu).1.streams =
      some [some 0, none] := by
  constructor
  · decide
  · decide

/-- C3 amended: `Scatter.forward` forwards its arguments to the
communication library and synchronizes streams, but acquires background
streams lazily — when the input is already on a device (or the runtime is
unavailable) the global per-device stream table is left unchanged, and in
every call the table changes at most by filling previously empty slots:
no existing stream entry is ever replaced or dropped. -/
theorem scatter_stream_table_lazy (w : World) (target_gpus : List Int)
    (chunk_sizes : Option (List Nat)) (dim : Int) (input : Tensor) :
    (¬ (w.isAvailable = true ∧ input.device = DeviceT.cpu) →
       (Scatter.forward w target_gpus chunk_sizes dim input).1.streams = w.streams)
    ∧ (∀ d s, streamEntry w.streams d = some s →
        streamEntry (Scatter.forward w target_gpus chunk_sizes dim input).1.streams d
          = some s) := by
  rcases hav : w.availType with _ | τ
  · constructor
    · intro _
      simp [Scatter.forward, _get_device_impl, hav]
    · intro d s h
      simpa [Scatter.forward, _get_device_impl, hav] using h
  · cases hacq : (w.isAvailable &&
        (if input.device != DeviceT.cpu then input.get_device else -1) == -1) with
    | false =>
      constructor
      · intro _
        simp only [Scatter.forward, _get_device_impl, hav]
        rw [hacq]
        simp
      · intro d s h
        simp only [Scatter.forward, _get_device_impl, hav]
        rw [hacq]
        simpa using h
    | true =>
      constructor
      · intro hno
        exact absurd ((scatter_acquire_iff w input).mp hacq) hno
      · intro d s h
        simp only [Scatter.forward, _get_device_impl, hav]
        rw [hacq]
        simpa using getStreams_mono w (target_gpus.map _get_device_index) d s h

/-- Witness for C3 (amended): a device-input scatter leaves the table
unchanged, and a CPU-input scatter preserves the pre-existing stream of
device 1. -/
theorem scatter_stream_table_lazy_witness :
    (¬ (wGpu.isAvailable = true ∧ tG0.device = DeviceT.cpu) ∧
     (Scatter.forward wGpu [0] (some [2]) 0 tG0).1.streams = wGpu.streams)
    ∧ (streamEntry wTbl.streams 1 = some 42 ∧
       streamEntry (Scatter.forward wTbl [0, 1] (some [1, 1]) 0 tCpu).1.streams 1 =
         some 42) :=
  ⟨⟨by decide, (scatter_stream_table_lazy wGpu [0] (some [2]) 0 tG0).1 (by decide)⟩,
   ⟨rfl, (scatter_stream_table_lazy wTbl [0, 1] (some [1, 1]) 0 tCpu).2 1 42 rfl⟩⟩

/-- C4: in `Scatter.forward` (with the device module importable),
background streams are used exactly when the input tensor is on the CPU
(recorded input device `-1`) and the runtime reports availability; in that
case one background stream slot is acquired per target device, the
scatter call receives them, and afterwards, for each output in turn, the
target device's current stream waits on that device's background stream
and the output is recorded on the current stream; when no background
streams are used the scatter call receives `None` and no wait/record
synchronization happens (the call log grows by the scatter call alone). -/
theorem scatter_stream_sync (w : World) (target_gpus : List Int)
    (chunk_sizes : Option (List Nat)) (dim : Int) (input : Tensor) (τ : String)
    (hav : w.availType = some τ) :
    ((w.isAvailable &&
        (if input.device != DeviceT.cpu then input.get_device else -1) == -1) = true
       ↔ (w.isAvailable = true ∧ input.device = DeviceT.cpu))
    ∧ (getStreams w (target_gpus.map _get_device_index)).2.length =
        (target_gpus.map _get_device_index).length
    ∧ ((w.isAvailable &&
        (if input.device != DeviceT.cpu then input.get_device else -1) == -1) = true →
        (Scatter.forward w target_gpus chunk_sizes dim input).1.log =
          w.log ++
            [Event.scatterComm input (target_gpus.map _get_device_index) chunk_sizes dim
               (some (getStreams w (target_gpus.map _get_device_index)).2)] ++
            syncEvents w.currentStream
              (comm.scatter input (target_gpus.map _get_device_index) chunk_sizes dim
                 (some (getStreams w (target_gpus.map _get_device_index)).2))
              (target_gpus.map _get_device_index)
              (getStreams w (target_gpus.map _get_device_index)).2)
    ∧ ((w.isAvailable &&
        (if input.device != DeviceT.cpu then input.get_device else -1) == -1) = false →
        (Scatter.forward w target_gpus chunk_sizes dim input).1.log =
          w.log ++
            [Event.scatterComm input (target_gpus.map _get_device_index) chunk_sizes dim
               none]) := by
  refine ⟨scatter_acquire_iff w input, getStreams_length w _, ?_, ?_⟩
  · intro hacq
    have hframe := getStreams_frame w (target_gpus.map _get_device_index)
    simp only [Scatter.forward, _get_device_impl, hav]
    rw [hacq]
    simp [hframe.1, hframe.2, List.append_assoc]
  · intro hacq
    simp only [Scatter.forward, _get_device_impl, hav]
    rw [hacq]
    simp

/-- Witness for C4: a concrete CPU-input scatter to two devices logs the
scatter call with its two background streams followed by the wait/record
synchronization for each output. -/
theorem scatter_stream_sync_witness :
    wGpu.availType = some "cuda" ∧
    (wGpu.isAvailable &&
       (if tCpu.device != DeviceT.cpu then tCpu.get_device else -1) == -1) = true ∧
    (Scatter.forward wGpu [0, 1] (some [1, 1]) 0 tCpu).1.log =
      wGpu.log ++
        [Event.scatterComm tCpu ([0, 1].map _get_device_index) (some [1, 1]) 0
           (some (getStreams wGpu ([0, 1].map _get_device_index)).2)] ++
        syncEvents wGpu.currentStream
          (comm.scatter tCpu ([0, 1].map _get_device_index) (some [1, 1]) 0
             (some (getStreams wGpu ([0, 1].map _get_device_index)).2))
          ([0, 1].map _get_device_index)
          (getStreams wGpu ([0, 1].map _get_device_index)).2 :=
  ⟨rfl, rfl,
   (scatter_stream_sync wGpu [0, 1] (some [1, 1]) 0 tCpu "cuda" rfl).2.2.1 rfl⟩

/-- With the device module importable, `Scatter.apply` succeeds and
returns the chunks produced by `comm.scatter` (whose value does not
depend on the streams argument). -/
theorem scatter_applyF_ok (w : World) (τ : String) (hav : w.availType = some τ)
    (tg : List Int) (cs : Option (List Nat)) (dim : Int) (input : Tensor) :
    (Scatter.applyF w tg cs dim input).2 =
      Except.ok (comm.scatter input (tg.map _get_device_index) cs dim none) := by
  simp only [Scatter.applyF, Scatter.forward, _get_device_impl, hav]
  cases hacq : (w.isAvailable &&
      (if input.device != DeviceT.cpu then input.get_device else -1) == -1) with
  | false => rfl
  | true => rfl

/-- The shape `comm.gather` produces from unit-viewed scalars along
dimension 0: a vector whose extent is the number of inputs. -/
theorem gather_viewed_scalars_shape (inputs : List Tensor) (td : GatherDest)
    (hne : inputs ≠ []) :
    (comm.gather (inputs.map Tensor.view1) 0 td).shape = [inputs.length] := by
  rcases inputs with _ | ⟨i0, rest⟩
  · exact absurd rfl hne
  · show setDim [1] 0
      (((i0 :: rest).map Tensor.view1).map (fun i => Tensor.size i 0)).sum = _
    rw [List.map_map]
    show setDim [1] 0 ((i0 :: rest).map (fun _ => 1)).sum = _
    rw [sum_map_one]
    rfl

/-- C9: when every input of a `Gather` along dimension 0 is a
zero-dimensional scalar, each input is viewed as a one-element vector
(with a warning logged before the gather call), so the result is a vector
of length `n` rather than a scalar, and the backward pass indexes element
0 of each scattered gradient so the `n` gradients come back as scalars;
when some input is non-scalar or the dimension is nonzero, no unsqueezing
happens (the gather call receives the inputs unchanged and no warning is
logged). -/
theorem gather_scalar_unsqueeze :
    (∀ (w : World) (td : GatherDest) (i0 : Tensor) (rest : List Tensor),
       ((i0 :: rest).all (fun i => i.device != DeviceT.cpu)) = true →
       ((i0 :: rest).all (fun t => t.ndim == 0)) = true →
       ∃ (ctx : GatherCtx) (out : Tensor),
         (Gather.forward w td 0 (i0 :: rest)).2 = Except.ok (ctx, out) ∧
         ctx.unsqueezed_scalar = true ∧
         out.shape = [(i0 :: rest).length] ∧
         (Gather.forward w td 0 (i0 :: rest)).1.log =
           w.log ++ [Event.warn gatherScalarWarnMsg,
                     Event.gatherComm ((i0 :: rest).map Tensor.view1) 0
                       (translateGatherDest td)] ∧
         (∀ (wb : World) (τ : String) (g : Tensor),
            wb.availType = some τ → g.shape.length = 1 →
            ∃ ts : List Tensor,
              (Gather.backward wb ctx g).2 =
                Except.ok (none :: none :: ts.map some) ∧
              ts.length = (i0 :: rest).length ∧
              ∀ t ∈ ts, t.shape = []))
    ∧ (∀ (w : World) (td : GatherDest) (dim : Int) (inputs : List Tensor),
       (inputs.all (fun i => i.device != DeviceT.cpu)) = true →
       ((inputs.all (fun t => t.ndim == 0) && dim == 0)) = false →
       ∃ (ctx : GatherCtx) (out : Tensor),
         (Gather.forward w td dim inputs).2 = Except.ok (ctx, out) ∧
         ctx.unsqueezed_scalar = false ∧
         (Gather.forward w td dim inputs).1.log =
           w.log ++ [Event.gatherComm inputs dim (translateGatherDest td)]) := by
  constructor
  · intro w td i0 rest hall hscal
    have hunsq : ((i0 :: rest).all (fun t => t.ndim == 0) && ((0 : Int) == 0)) = true := by
      rw [hscal]; rfl
    simp only [Gather.forward, hall, if_true]
    rw [hunsq]
    refine ⟨_, _, rfl, rfl, ?_, ?_, ?_⟩
    · exact gather_viewed_scalars_shape (i0 :: rest) (translateGatherDest td)
        (List.cons_ne_nil i0 rest)
    · simp
    · intro wb τ g havb hg
      obtain ⟨a, ha⟩ := List.length_eq_one.mp hg
      refine ⟨(comm.scatter g
          ((((i0 :: rest)).map Tensor.get_device).map _get_device_index)
          (some (((i0 :: rest).map Tensor.view1).map (fun i => Tensor.size i 0)))
          0 none).map Tensor.index0, ?_, ?_, ?_⟩
      · simp only [Gather.backward]
        rw [scatter_applyF_ok wb τ havb]
        rfl
      · simp [comm.scatter, List.length_zip]
      · intro t ht
        simp only [comm.scatter, List.mem_map] at ht
        obtain ⟨p, hp, hpt⟩ := ht
        obtain ⟨q, hq, hqt⟩ := hp
        subst hpt hqt
        simp [Tensor.index0, setDim, normDim, ha]
  · intro w td dim inputs hall hflag
    simp only [Gather.forward, hall, if_true]
    rw [hflag]
    exact ⟨_, _, rfl, rfl, by simp⟩

/-- Witness for C9: gathering two concrete device scalars along
dimension 0. -/
theorem gather_scalar_unsqueeze_witness :
    ([tS0, tS1].all (fun i => i.device != DeviceT.cpu)) = true ∧
    ([tS0, tS1].all (fun t => t.ndim == 0)) = true ∧
    (∃ (ctx : GatherCtx) (out : Tensor),
       (Gather.forward wGpu GatherDest.cpuDest 0 [tS0, tS1]).2 =
         Except.ok (ctx, out) ∧
       ctx.unsqueezed_scalar = true ∧
       out.shape = [[tS0, tS1].length] ∧
       (Gather.forward wGpu GatherDest.cpuDest 0 [tS0, tS1]).1.log =
         wGpu.log ++ [Event.warn gatherScalarWarnMsg,
                      Event.gatherComm ([tS0, tS1].map Tensor.view1) 0
                        (translateGatherDest GatherDest.cpuDest)] ∧
       (∀ (wb : World) (τ : String) (g : Tensor),
          wb.availType = some τ → g.shape.length = 1 →
          ∃ ts : List Tensor,
            (Gather.backward wb ctx g).2 =
              Except.ok (none :: none :: ts.map some) ∧
            ts.length = [tS0, tS1].length ∧
            ∀ t ∈ ts, t.shape = [])) :=
  ⟨rfl, rfl, gather_scalar_unsqueeze.1 wGpu GatherDest.cpuDest tS0 [tS1] rfl rfl⟩

/-- C7: with a well-formed `compile_spec` (a `"forward"` entry whose input
dtypes are supported), `preprocess` raises its assertion error exactly
when the compiled spec's output count differs from the declared output
count, and succeeds when they agree. -/
theorem preprocess_assert_iff
    (env : CTEnv) (script_module : Nat)
    (compile_spec : List (String × (List (PyShape × Int) × List (PyShape × Int) × String × Bool)))
    (input_specs output_specs : List (PyShape × Int)) (backend : String)
    (allow_low_precision : Bool) (mil : List MilTensorType)
    (hfwd : compile_spec.lookup "forward" =
      some (input_specs, output_specs, backend, allow_low_precision))
    (hmil : milInputs input_specs = some mil) :
    ((preprocess env script_module compile_spec =
        Except.error (PErr.assertionError
          "len(spec.description.output) == len(output_specs)"))
       ↔ (env.convert script_module mil).output.length ≠ output_specs.length)
    ∧ ((env.convert script_module mil).output.length = output_specs.length →
        ∃ r, preprocess env script_module compile_spec = Except.ok r) := by
  by_cases hlen : (env.convert script_module mil).output.length = output_specs.length
  · constructor
    · simp [preprocess, hfwd, hmil, hlen]
    · intro _
      exact ⟨{ model := env.serialize (env.convert script_module mil),
               hash := sha256hex (env.serialize (env.convert script_module mil)),
               extra := coremlExtraJson (inputsRecord input_specs)
                 (outputsRecord output_specs (env.convert script_module mil))
                 (configRecord (env.convert script_module mil) backend
                   allow_low_precision)
                 (metadataRecord env (env.convert script_module mil)) },
             by simp [preprocess, hfwd, hmil, hlen]⟩
  · constructor
    · simp [preprocess, hfwd, hmil, hlen]
    · intro h
      exact absurd h hlen

/-- Witness for C7: a compiled spec declaring no outputs against one
declared output spec raises the assertion error; the matching environment
succeeds. -/
theorem preprocess_assert_iff_witness :
    csC6.lookup "forward" =
      some ([(PyShape.tuple [PyItem.int 1], ScalarType.Float)],
            [(PyShape.tuple [PyItem.int 1], ScalarType.Float)],
            CoreMLComputeUnit.CPU, true) ∧
    milInputs [(PyShape.tuple [PyItem.int 1], ScalarType.Float)] = some milC6 ∧
    (envC7.convert 0 milC6).output.length ≠
      [(PyShape.tuple [PyItem.int 1], ScalarType.Float)].length ∧
    preprocess envC7 0 csC6 =
      Except.error (PErr.assertionError
        "len(spec.description.output) == len(output_specs)") :=
  ⟨rfl, rfl, by decide,
   (preprocess_assert_iff envC7 0 csC6
      [(PyShape.tuple [PyItem.int 1], ScalarType.Float)]
      [(PyShape.tuple [PyItem.int 1], ScalarType.Float)]
      CoreMLComputeUnit.CPU true milC6 rfl rfl).1.mpr (by decide)⟩

/-- C6: every successful `preprocess` call returns a record with exactly
the fields `model`, `hash` and `extra`, where `model` is the serialized
byte blob of the compiled model spec, `hash` is the hexadecimal SHA-256
digest of exactly those bytes, and `extra` is the JSON rendering of the
record holding the inputs (named `input_<index>` in declaration order),
the outputs (named from the compiled spec's output descriptions), the
config and the metadata. -/
theorem preprocess_success_shape
    (env : CTEnv) (script_module : Nat)
    (compile_spec : List (String × (List (PyShape × Int) × List (PyShape × Int) × String × Bool)))
    (input_specs output_specs : List (PyShape × Int)) (backend : String)
    (allow_low_precision : Bool) (mil : List MilTensorType)
    (hfwd : compile_spec.lookup "forward" =
      some (input_specs, output_specs, backend, allow_low_precision))
    (hmil : milInputs input_specs = some mil)
    (hlen : (env.convert script_module mil).output.length = output_specs.length) :
    ∃ r : PreprocessResult,
      preprocess env script_module compile_spec = Except.ok r ∧
      r.model = env.serialize (env.convert script_module mil) ∧
      r.hash = sha256hex r.model ∧
      r.extra = coremlExtraJson (inputsRecord input_specs)
        (outputsRecord output_specs (env.convert script_module mil))
        (configRecord (env.convert script_module mil) backend allow_low_precision)
        (metadataRecord env (env.convert script_module mil)) ∧
      (∀ i, i < input_specs.length →
        (inputsRecord input_specs).getD i [] =
          ["input_" ++ toString i, toString (input_specs.getD i default).2,
           (input_specs.getD i default).1.pystr]) ∧
      (∀ i, i < output_specs.length →
        (outputsRecord output_specs (env.convert script_module mil)).getD i [] =
          [((env.convert script_module mil).output.getD i default).name,
           toString (output_specs.getD i default).2,
           (output_specs.getD i default).1.pystr]) := by
  refine ⟨{ model := env.serialize (env.convert script_module mil),
            hash := sha256hex (env.serialize (env.convert script_module mil)),
            extra := coremlExtraJson (inputsRecord input_specs)
              (outputsRecord output_specs (env.convert script_module mil))
              (configRecord (env.convert script_module mil) backend
                allow_low_precision)
              (metadataRecord env (env.convert script_module mil)) },
          by simp [preprocess, hfwd, hmil, hlen], rfl, rfl, rfl, ?_, ?_⟩
  · intro i hi
    exact enum_map_getD input_specs _ i [] hi
  · intro i hi
    exact enum_map_getD output_specs _ i [] hi

/-- Witness for C6: a concrete one-input/one-output export through a
concrete compiler environment. -/
theorem preprocess_success_shape_witness :
    csC6.lookup "forward" =
      some ([(PyShape.tuple [PyItem.int 1], ScalarType.Float)],
            [(PyShape.tuple [PyItem.int 1], ScalarType.Float)],
            CoreMLComputeUnit.CPU, true) ∧
    milInputs [(PyShape.tuple [PyItem.int 1], ScalarType.Float)] = some milC6 ∧
    (envC6.convert 0 milC6).output.length =
      [(PyShape.tuple [PyItem.int 1], ScalarType.Float)].length ∧
    (∃ r : PreprocessResult,
      preprocess envC6 0 csC6 = Except.ok r ∧
      r.model = envC6.serialize (envC6.convert 0 milC6) ∧
      r.hash = sha256hex r.model ∧
      r.extra = coremlExtraJson
        (inputsRecord [(PyShape.tuple [PyItem.int 1], ScalarType.Float)])
        (outputsRecord [(PyShape.tuple [PyItem.int 1], ScalarType.Float)]
          (envC6.convert 0 milC6))
        (configRecord (envC6.convert 0 milC6) CoreMLComputeUnit.CPU true)
        (metadataRecord envC6 (envC6.convert 0 milC6)) ∧
      (∀ i, i < [(PyShape.tuple [PyItem.int 1], ScalarType.Float)].length →
        (inputsRecord [(PyShape.tuple [PyItem.int 1], ScalarType.Float)]).getD i [] =
          ["input_" ++ toString i,
           toString (([(PyShape.tuple [PyItem.int 1], ScalarType.Float)].getD i
             default)).2,
           (([(PyShape.tuple [PyItem.int 1], ScalarType.Float)].getD i
             default)).1.pystr]) ∧
      (∀ i, i < [(PyShape.tuple [PyItem.int 1], ScalarType.Float)].length →
        (outputsRecord [(PyShape.tuple [PyItem.int 1], ScalarType.Float)]
            (envC6.convert 0 milC6)).getD i [] =
          [((envC6.convert 0 milC6).output.getD i default).name,
           toString (([(PyShape.tuple [PyItem.int 1], ScalarType.Float)].getD i
             default)).2,
           (([(PyShape.tuple [PyItem.int 1], ScalarType.Float)].getD i
             default)).1.pystr])) :=
  ⟨rfl, rfl, rfl,
   preprocess_success_shape envC6 0 csC6
     [(PyShape.tuple [PyItem.int 1], ScalarType.Float)]
     [(PyShape.tuple [PyItem.int 1], ScalarType.Float)]
     CoreMLComputeUnit.CPU true milC6 rfl rfl rfl⟩

/-- FIPS 180-4 test vector: the SHA-256 digest of the empty message. -/
theorem sha256hex_empty :
    sha256hex [] =
      "e3b0c44298fc1c149afbf4c8996fb92427ae41e4649b934ca495991b7852b855" := by
  decide

/-- FIPS 180-4 test vector: the SHA-256 digest of `"abc"`. -/
theorem sha256hex_abc :
    sha256hex [97, 98, 99] =
      "ba7816bf8f01cfea414140de5dae2223b00361a396177a9cb410ff61f20015ad" := by
  decide
